import Mathlib

/-!
Shallow embedding of the `SceneManager` core of the CS-330 repository
(`src/7-1 Final Project/Source/Source/SceneManager.cpp`): the texture
registry, the material registry, the per-object shading state setters and
the model-matrix builder.  C++ container state is modelled by explicit
Lean values (the registry arrays become lists, the `m_loadedTextures`
counter is the list length), the OpenGL texture-name generator becomes an
explicit counter state, and the shader pointer becomes a `Bool` flag with
null dereference modelled as `Except.error`.
-/

namespace SceneManager

/-- One entry of the texture registry `m_textureIDs`: the GL texture name
(`GLuint ID`) and the lookup key (`std::string tag`), as used by
`CreateGLTexture`, `FindTextureID` and `FindTextureSlot`. -/
structure TextureEntry where
  ID : Nat
  tag : String
  deriving Repr, DecidableEq

/-- One entry of the material registry `m_objectMaterials`
(`OBJECT_MATERIAL`): diffuse color, specular color, shininess and tag.
`float`/`glm::vec3` components are modelled over `ℚ` (the code only
stores and copies them, it never computes with them). -/
structure OBJECT_MATERIAL where
  diffuseColor : ℚ × ℚ × ℚ
  specularColor : ℚ × ℚ × ℚ
  shininess : ℚ
  tag : String
  deriving Repr, DecidableEq

instance : Inhabited OBJECT_MATERIAL := ⟨⟨(0, 0, 0), (0, 0, 0), 0, ""⟩⟩

/-- The OpenGL texture-object state visible to this code: `glGenTextures`
hands out fresh names, and nothing in `SceneManager.cpp` ever calls
`glDeleteTextures`, so the list of live texture objects only grows. -/
structure GLState where
  nextTextureName : Nat
  liveTextures : List Nat
  deriving Repr, DecidableEq

/-- `glGenTextures(1, &id)`: return a fresh texture name and record it as
a live texture object. -/
def glGenTexture (g : GLState) : Nat × GLState :=
  (g.nextTextureName,
   { nextTextureName := g.nextTextureName + 1,
     liveTextures := g.liveTextures ++ [g.nextTextureName] })

/-- The `SceneManager` member state the claims are about: the GL texture
objects, the texture registry `m_textureIDs` (with `m_loadedTextures` as
its length) and the material registry `m_objectMaterials`. -/
structure SceneState where
  gl : GLState
  m_textureIDs : List TextureEntry
  m_objectMaterials : List OBJECT_MATERIAL
  deriving Repr, DecidableEq

/-- `SceneManager::CreateGLTexture` (SceneManager.cpp lines 60-124).  The
result of `stbi_load` is the `decoded` input: `none` for a decode
failure, `some (width, height, colorChannels)` for a decoded image.  On
decode success the code first generates a GL texture name; if the channel
count is 3 (RGB) or 4 (RGBA) it uploads the image, appends
`{ID, tag}` to `m_textureIDs`, increments `m_loadedTextures` and returns
`true`; any other channel count returns `false` before the registry is
touched, and a decode failure returns `false` with no GL call at all. -/
def CreateGLTexture (decoded : Option (Int × Int × Int)) (tag : String)
    (s : SceneState) : Bool × SceneState :=
  match decoded with
  | some (_, _, colorChannels) =>
      let p := glGenTexture s.gl
      if colorChannels = 3 ∨ colorChannels = 4 then
        (true,
         { s with
             gl := p.2,
             m_textureIDs := s.m_textureIDs ++ [⟨p.1, tag⟩] })
      else
        (false, { s with gl := p.2 })
  | none => (false, s)

/-- The loop body of `SceneManager::BindGLTextures` (lines 132-141):
for each `i < m_loadedTextures` it issues
`glActiveTexture(GL_TEXTURE0 + i); glBindTexture(m_textureIDs[i].ID)`.
The result is the list of issued bindings, as pairs
(texture unit offset from `GL_TEXTURE0`, texture name). -/
def bindGLTexturesFrom : Nat → List TextureEntry → List (Nat × Nat)
  | _, [] => []
  | i, e :: rest => (i, e.ID) :: bindGLTexturesFrom (i + 1) rest

/-- `SceneManager::BindGLTextures`: the loop starts at texture unit 0. -/
def BindGLTextures (texs : List TextureEntry) : List (Nat × Nat) :=
  bindGLTexturesFrom 0 texs

/-- `SceneManager::DestroyGLTextures` (lines 149-155): for each loaded
texture it calls `glGenTextures(1, &m_textureIDs[i].ID)` — generating a
fresh texture name into the registry entry instead of deleting
anything. -/
def destroyGLTexturesLoop : GLState → List TextureEntry →
    GLState × List TextureEntry
  | g, [] => (g, [])
  | g, e :: rest =>
      let p := glGenTexture g
      let q := destroyGLTexturesLoop p.2 rest
      (q.1, { e with ID := p.1 } :: q.2)

/-- `SceneManager::DestroyGLTextures` applied to the scene state. -/
def DestroyGLTextures (s : SceneState) : SceneState :=
  let q := destroyGLTexturesLoop s.gl s.m_textureIDs
  { s with gl := q.1, m_textureIDs := q.2 }

/-- `SceneManager::FindTextureID` (lines 163-181): linear scan of
`m_textureIDs`, stopping at the first entry whose tag compares equal;
returns its `ID` (as a C++ `int`), or the sentinel `-1` when the scan
runs off the end. -/
def FindTextureID : List TextureEntry → String → Int
  | [], _ => -1
  | e :: rest, tag =>
      if e.tag = tag then Int.ofNat e.ID else FindTextureID rest tag

/-- The scan of `SceneManager::FindTextureSlot` (lines 189-207) with the
running `index` made explicit. -/
def findTextureSlotFrom : List TextureEntry → String → Nat → Int
  | [], _, _ => -1
  | e :: rest, tag, index =>
      if e.tag = tag then Int.ofNat index
      else findTextureSlotFrom rest tag (index + 1)

/-- `SceneManager::FindTextureSlot`: the scan starts at index 0; returns
the index of the first entry whose tag matches, or the sentinel `-1`. -/
def FindTextureSlot (texs : List TextureEntry) (tag : String) : Int :=
  findTextureSlotFrom texs tag 0

/-- The while loop of `SceneManager::FindMaterial` (lines 224-237): stop
at the first entry whose tag matches and copy its `diffuseColor`,
`specularColor` and `shininess` (but not its tag) into the caller's
output parameter; if no entry matches, the output parameter keeps its
incoming value. -/
def findMaterialLoop : List OBJECT_MATERIAL → String → OBJECT_MATERIAL →
    OBJECT_MATERIAL
  | [], _, material => material
  | e :: rest, tag, material =>
      if e.tag = tag then
        { material with
            diffuseColor := e.diffuseColor,
            specularColor := e.specularColor,
            shininess := e.shininess }
      else findMaterialLoop rest tag material

/-- `SceneManager::FindMaterial` (lines 215-240): on an empty registry it
returns `false` at once; otherwise it runs the scan loop and returns
`true` unconditionally — even when no entry matched.  The returned pair
is (the C++ return value, the final value of the by-reference `material`
output parameter). -/
def FindMaterial (mats : List OBJECT_MATERIAL) (tag : String)
    (material : OBJECT_MATERIAL) : Bool × OBJECT_MATERIAL :=
  if mats.length = 0 then (false, material)
  else (true, findMaterialLoop mats tag material)

/-- A uniform-setting call forwarded to the `ShaderManager`. -/
inductive UniformCall where
  | setInt (name : String) (v : Int)
  | setFloat (name : String) (v : ℚ)
  | setVec2 (name : String) (v : ℚ × ℚ)
  | setVec3 (name : String) (v : ℚ × ℚ × ℚ)
  | setVec4 (name : String) (v : ℚ × ℚ × ℚ × ℚ)
  | setSampler2D (name : String) (v : Int)
  deriving Repr, DecidableEq

/-- `SceneManager::SetShaderColor` (lines 286-305): builds the color
vector, then only if `m_pShaderManager` is non-null (`shaderPresent`)
forwards `bUseTexture := false` and the color.  The result is the list of
uniform calls issued; `Except.error` would mark a null-pointer
dereference, which this setter never performs. -/
def SetShaderColor (shaderPresent : Bool) (r g b a : ℚ) :
    Except Unit (List UniformCall) :=
  if shaderPresent then
    Except.ok [UniformCall.setInt "bUseTexture" 0,
               UniformCall.setVec4 "objectColor" (r, g, b, a)]
  else Except.ok []

/-- `SceneManager::SetShaderTexture` (lines 313-324): only if the shader
pointer is non-null, forwards `bUseTexture := true` and the sampler slot
resolved by `FindTextureSlot`. -/
def SetShaderTexture (shaderPresent : Bool) (texs : List TextureEntry)
    (textureTag : String) : Except Unit (List UniformCall) :=
  if shaderPresent then
    Except.ok [UniformCall.setInt "bUseTexture" 1,
               UniformCall.setSampler2D "objectTexture"
                 (FindTextureSlot texs textureTag)]
  else Except.ok []

/-- `SceneManager::SetTextureUVScale` (lines 332-338): only if the shader
pointer is non-null, forwards the UV scale vector. -/
def SetTextureUVScale (shaderPresent : Bool) (u v : ℚ) :
    Except Unit (List UniformCall) :=
  if shaderPresent then
    Except.ok [UniformCall.setVec2 "UVscale" (u, v)]
  else Except.ok []

/-- `SceneManager::SetShaderMaterial` (lines 348-364): if the material
registry is non-empty it calls `FindMaterial` into an uninitialized local
(`uninit` models the indeterminate stack value) and, when that reports
success, forwards the three material uniforms through `m_pShaderManager`
WITHOUT any null check — dereferencing the pointer even when it is null,
modelled as `Except.error ()`. -/
def SetShaderMaterial (shaderPresent : Bool) (uninit : OBJECT_MATERIAL)
    (mats : List OBJECT_MATERIAL) (materialTag : String) :
    Except Unit (List UniformCall) :=
  if mats.length > 0 then
    let r := FindMaterial mats materialTag uninit
    if r.1 then
      if shaderPresent then
        Except.ok [UniformCall.setVec3 "material.diffuseColor" r.2.diffuseColor,
                   UniformCall.setVec3 "material.specularColor" r.2.specularColor,
                   UniformCall.setFloat "material.shininess" r.2.shininess]
      else Except.error ()
    else Except.ok []
  else Except.ok []

/-- `glm::radians`: degrees to radians. -/
noncomputable def radians (deg : ℝ) : ℝ := deg * Real.pi / 180

/-- `glm::scale(glm::vec3(sx, sy, sz))` as a 4x4 matrix. -/
def scaleMat (sx sy sz : ℝ) : Matrix (Fin 4) (Fin 4) ℝ :=
  !![sx, 0, 0, 0;
     0, sy, 0, 0;
     0, 0, sz, 0;
     0, 0, 0, 1]

/-- `glm::rotate(a, glm::vec3(1, 0, 0))`: rotation by `a` radians about
the X axis. -/
noncomputable def rotXMat (a : ℝ) : Matrix (Fin 4) (Fin 4) ℝ :=
  !![1, 0, 0, 0;
     0, Real.cos a, -Real.sin a, 0;
     0, Real.sin a, Real.cos a, 0;
     0, 0, 0, 1]

/-- `glm::rotate(a, glm::vec3(0, 1, 0))`: rotation by `a` radians about
the Y axis. -/
noncomputable def rotYMat (a : ℝ) : Matrix (Fin 4) (Fin 4) ℝ :=
  !![Real.cos a, 0, Real.sin a, 0;
     0, 1, 0, 0;
     -Real.sin a, 0, Real.cos a, 0;
     0, 0, 0, 1]

/-- `glm::rotate(a, glm::vec3(0, 0, 1))`: rotation by `a` radians about
the Z axis. -/
noncomputable def rotZMat (a : ℝ) : Matrix (Fin 4) (Fin 4) ℝ :=
  !![Real.cos a, -Real.sin a, 0, 0;
     Real.sin a, Real.cos a, 0, 0;
     0, 0, 1, 0;
     0, 0, 0, 1]

/-- `glm::translate(glm::vec3(tx, ty, tz))` as a 4x4 matrix. -/
def translateMat (tx ty tz : ℝ) : Matrix (Fin 4) (Fin 4) ℝ :=
  !![1, 0, 0, tx;
     0, 1, 0, ty;
     0, 0, 1, tz;
     0, 0, 0, 1]

/-- `SceneManager::SetTransformations` (lines 248-278): build the scale,
per-axis rotation (degrees converted by `glm::radians`) and translation
matrices and combine them as
`modelView = translation * rotationZ * rotationY * rotationX * scale`;
this is the matrix pushed to the shader's `model` uniform.  Float
arithmetic is modelled exactly over `ℝ`.  -/
noncomputable def SetTransformations (scaleXYZ : ℝ × ℝ × ℝ)
    (XrotationDegrees YrotationDegrees ZrotationDegrees : ℝ)
    (positionXYZ : ℝ × ℝ × ℝ) : Matrix (Fin 4) (Fin 4) ℝ :=
  let scale := scaleMat scaleXYZ.1 scaleXYZ.2.1 scaleXYZ.2.2
  let rotationX := rotXMat (radians XrotationDegrees)
  let rotationY := rotYMat (radians YrotationDegrees)
  let rotationZ := rotZMat (radians ZrotationDegrees)
  let translation := translateMat positionXYZ.1 positionXYZ.2.1 positionXYZ.2.2
  translation * rotationZ * rotationY * rotationX * scale

/-- The effect of a matching `FindMaterial` loop iteration on the
caller's output parameter: copy `diffuseColor`, `specularColor` and
`shininess` from the registry entry, leave the rest (the tag field)
untouched. -/
def copyMaterialInto (e material : OBJECT_MATERIAL) : OBJECT_MATERIAL :=
  { material with
      diffuseColor := e.diffuseColor,
      specularColor := e.specularColor,
      shininess := e.shininess }

/-- A `SceneManager` right after construction: no textures loaded, no
materials defined; GL texture names are handed out from 1. -/
def initialScene : SceneState :=
  { gl := { nextTextureName := 1, liveTextures := [] },
    m_textureIDs := [],
    m_objectMaterials := [] }

/-- The scenario of spec section 8: three successful `CreateGLTexture`
calls with tags "a", "b", "c" in that order (each decoding to an RGB
image). -/
def loadABC : SceneState :=
  (CreateGLTexture (some (8, 8, 3)) "c"
    ((CreateGLTexture (some (8, 8, 3)) "b"
      ((CreateGLTexture (some (8, 8, 3)) "a" initialScene).2)).2)).2

end SceneManager

namespace SceneManager

/-! Helper lemmas about the linear scans and loops. -/

theorem findMaterialLoop_no_match (mats : List OBJECT_MATERIAL)
    (tag : String) (material : OBJECT_MATERIAL)
    (h : ∀ e ∈ mats, e.tag ≠ tag) :
    findMaterialLoop mats tag material = material := by
  induction mats with
  | nil => rfl
  | cons e rest ih =>
      have he : e.tag ≠ tag := h e (List.mem_cons_self e rest)
      simp only [findMaterialLoop, if_neg he]
      exact ih fun x hx => h x (List.mem_cons_of_mem e hx)

theorem FindTextureID_no_match (texs : List TextureEntry) (tag : String)
    (h : ∀ e ∈ texs, e.tag ≠ tag) : FindTextureID texs tag = -1 := by
  induction texs with
  | nil => rfl
  | cons e rest ih =>
      have he : e.tag ≠ tag := h e (List.mem_cons_self e rest)
      simp only [FindTextureID, if_neg he]
      exact ih fun x hx => h x (List.mem_cons_of_mem e hx)

theorem findTextureSlotFrom_no_match (texs : List TextureEntry)
    (tag : String) (h : ∀ e ∈ texs, e.tag ≠ tag) :
    ∀ k : Nat, findTextureSlotFrom texs tag k = -1 := by
  induction texs with
  | nil => intro k; rfl
  | cons e rest ih =>
      intro k
      have he : e.tag ≠ tag := h e (List.mem_cons_self e rest)
      simp only [findTextureSlotFrom, if_neg he]
      exact ih (fun x hx => h x (List.mem_cons_of_mem e hx)) (k + 1)

theorem FindTextureID_append_first (texs1 texs2 : List TextureEntry)
    (e : TextureEntry) (tag : String) (he : e.tag = tag)
    (hbefore : ∀ x ∈ texs1, x.tag ≠ tag) :
    FindTextureID (texs1 ++ e :: texs2) tag = Int.ofNat e.ID := by
  induction texs1 with
  | nil => simp [FindTextureID, he]
  | cons x rest ih =>
      have hx : x.tag ≠ tag := hbefore x (List.mem_cons_self x rest)
      simp only [List.cons_append, FindTextureID, if_neg hx]
      exact ih fun y hy => hbefore y (List.mem_cons_of_mem x hy)

theorem findTextureSlotFrom_append_first (texs1 texs2 : List TextureEntry)
    (e : TextureEntry) (tag : String) (he : e.tag = tag)
    (hbefore : ∀ x ∈ texs1, x.tag ≠ tag) :
    ∀ k : Nat, findTextureSlotFrom (texs1 ++ e :: texs2) tag k =
      Int.ofNat (k + texs1.length) := by
  induction texs1 with
  | nil => intro k; simp [findTextureSlotFrom, he]
  | cons x rest ih =>
      intro k
      have hx : x.tag ≠ tag := hbefore x (List.mem_cons_self x rest)
      simp only [List.cons_append, findTextureSlotFrom, if_neg hx,
        List.append_eq]
      rw [ih (fun y hy => hbefore y (List.mem_cons_of_mem x hy)) (k + 1)]
      congr 1
      simp only [List.length_cons]
      omega

theorem findMaterialLoop_append_first (mats1 mats2 : List OBJECT_MATERIAL)
    (m : OBJECT_MATERIAL) (tag : String) (material : OBJECT_MATERIAL)
    (hm : m.tag = tag) (hbefore : ∀ x ∈ mats1, x.tag ≠ tag) :
    findMaterialLoop (mats1 ++ m :: mats2) tag material =
      copyMaterialInto m material := by
  induction mats1 with
  | nil => simp [findMaterialLoop, hm, copyMaterialInto]
  | cons x rest ih =>
      have hx : x.tag ≠ tag := hbefore x (List.mem_cons_self x rest)
      simp only [List.cons_append, findMaterialLoop, if_neg hx]
      exact ih fun y hy => hbefore y (List.mem_cons_of_mem x hy)

theorem bindGLTexturesFrom_get (texs : List TextureEntry) :
    ∀ k n : Nat, (bindGLTexturesFrom k texs).get? n =
      (texs.get? n).map fun e => (k + n, e.ID) := by
  induction texs with
  | nil => intro k n; simp [bindGLTexturesFrom]
  | cons e rest ih =>
      intro k n
      cases n with
      | zero => simp [bindGLTexturesFrom]
      | succ n =>
          simp only [bindGLTexturesFrom, List.get?_cons_succ]
          rw [ih (k + 1) n]
          cases rest.get? n <;> simp
          omega

/-! The claims. -/

/-- Claim C8: for every tag, `FindMaterial` on an empty material registry
immediately returns `false` ("not found") and leaves the caller's
material output parameter unmodified. -/
theorem C8_findMaterial_empty_registry (tag : String)
    (material : OBJECT_MATERIAL) :
    FindMaterial [] tag material = (false, material) := rfl

/-- Claim C1: for every tag, if the material registry is non-empty and no
entry's tag matches, `FindMaterial` signals success (returns `true`)
while leaving the caller's material output parameter unmodified. -/
theorem C1_findMaterial_nonempty_no_match (mats : List OBJECT_MATERIAL)
    (tag : String) (material : OBJECT_MATERIAL) (hne : mats ≠ [])
    (hnm : ∀ e ∈ mats, e.tag ≠ tag) :
    FindMaterial mats tag material = (true, material) := by
  have hlen : mats.length ≠ 0 := fun h => hne (List.length_eq_zero.mp h)
  simp only [FindMaterial, if_neg hlen]
  rw [findMaterialLoop_no_match mats tag material hnm]

theorem C1_witness :
    FindMaterial [⟨(3/5, 2/5, 1/5), (1/5, 1/10, 1/10), 10, "wood"⟩]
      "glass" ⟨(0, 0, 0), (0, 0, 0), 0, ""⟩ =
      (true, ⟨(0, 0, 0), (0, 0, 0), 0, ""⟩) :=
  C1_findMaterial_nonempty_no_match _ "glass" _ (by decide) (by decide)

/-- Claim C5: for every tag not registered in the texture registry, both
`FindTextureID` and `FindTextureSlot` return the sentinel `-1`, never a
valid-looking handle or slot index, and neither raises an error. -/
theorem C5_unregistered_tag_sentinel (texs : List TextureEntry)
    (tag : String) (h : ∀ e ∈ texs, e.tag ≠ tag) :
    FindTextureID texs tag = -1 ∧ FindTextureSlot texs tag = -1 :=
  ⟨FindTextureID_no_match texs tag h,
   findTextureSlotFrom_no_match texs tag h 0⟩

theorem C5_witness :
    FindTextureID [⟨1, "floor"⟩, ⟨2, "tbottle"⟩] "coffee" = -1 ∧
      FindTextureSlot [⟨1, "floor"⟩, ⟨2, "tbottle"⟩] "coffee" = -1 :=
  C5_unregistered_tag_sentinel _ "coffee" (by decide)

/-- Claim C9: lookups perform no duplicate detection.  For any texture
registry of the shape `texs1 ++ e :: texs2 ++ d :: texs3` where the first
matching entry is `e` and a later duplicate `d` carries the same tag,
`FindTextureID` returns `e`'s ID and `FindTextureSlot` returns `e`'s
index, silently ignoring `d`; likewise `FindMaterial` on a registry
`mats1 ++ m :: mats2 ++ md :: mats3` with duplicate tags copies the data
of the earliest-inserted match `m`. -/
theorem C9_first_match_wins (texs1 texs2 texs3 : List TextureEntry)
    (e d : TextureEntry) (mats1 mats2 mats3 : List OBJECT_MATERIAL)
    (m md : OBJECT_MATERIAL) (tag : String) (material : OBJECT_MATERIAL)
    (he : e.tag = tag) (_hd : d.tag = tag)
    (htb : ∀ x ∈ texs1, x.tag ≠ tag)
    (hm : m.tag = tag) (_hmd : md.tag = tag)
    (hmb : ∀ x ∈ mats1, x.tag ≠ tag) :
    FindTextureID (texs1 ++ e :: (texs2 ++ d :: texs3)) tag =
        Int.ofNat e.ID ∧
      FindTextureSlot (texs1 ++ e :: (texs2 ++ d :: texs3)) tag =
        Int.ofNat texs1.length ∧
      FindMaterial (mats1 ++ m :: (mats2 ++ md :: mats3)) tag material =
        (true, copyMaterialInto m material) := by
  refine ⟨FindTextureID_append_first texs1 _ e tag he htb, ?_, ?_⟩
  · have h := findTextureSlotFrom_append_first texs1 (texs2 ++ d :: texs3)
      e tag he htb 0
    simpa [FindTextureSlot] using h
  · have hlen : (mats1 ++ m :: (mats2 ++ md :: mats3)).length ≠ 0 := by
      simp
    simp only [FindMaterial, if_neg hlen]
    rw [findMaterialLoop_append_first mats1 _ m tag material hm hmb]

theorem C9_witness :
    FindTextureID [⟨10, "x"⟩, ⟨20, "x"⟩] "x" = Int.ofNat 10 ∧
      FindTextureSlot [⟨10, "x"⟩, ⟨20, "x"⟩] "x" = Int.ofNat 0 ∧
      FindMaterial
          [⟨(1, 2, 3), (4, 5, 6), 7, "x"⟩, ⟨(8, 8, 8), (9, 9, 9), 9, "x"⟩]
          "x" ⟨(0, 0, 0), (0, 0, 0), 0, ""⟩ =
        (true, copyMaterialInto ⟨(1, 2, 3), (4, 5, 6), 7, "x"⟩
          ⟨(0, 0, 0), (0, 0, 0), 0, ""⟩) :=
  C9_first_match_wins [] [] [] ⟨10, "x"⟩ ⟨20, "x"⟩ [] [] []
    ⟨(1, 2, 3), (4, 5, 6), 7, "x"⟩ ⟨(8, 8, 8), (9, 9, 9), 9, "x"⟩ "x"
    ⟨(0, 0, 0), (0, 0, 0), 0, ""⟩ (by decide) (by decide) (by decide)
    (by decide) (by decide) (by decide)

/-- Claim C4: after `BindGLTextures` the Nth loaded texture is bound to
GPU texture unit N (units assigned sequentially from 0 in load order):
the Nth issued binding is `(N, m_textureIDs[N].ID)`.  `FindTextureSlot`
on a registered tag returns that load-order index (the index of the first
entry carrying the tag).  In the concrete scenario of loading tags "a",
"b", "c" in that order, the slot for "b" is 1 and the three bindings are
units 0, 1, 2 in load order. -/
theorem C4_bind_load_order :
    (∀ (texs : List TextureEntry) (n : Nat),
        (BindGLTextures texs).get? n =
          (texs.get? n).map fun e => (n, e.ID)) ∧
      (∀ (texs1 texs2 : List TextureEntry) (e : TextureEntry)
          (tag : String), e.tag = tag → (∀ x ∈ texs1, x.tag ≠ tag) →
          FindTextureSlot (texs1 ++ e :: texs2) tag =
            Int.ofNat texs1.length) ∧
      (FindTextureSlot loadABC.m_textureIDs "b" = 1 ∧
        BindGLTextures loadABC.m_textureIDs = [(0, 1), (1, 2), (2, 3)]) := by
  refine ⟨?_, ?_, ?_⟩
  · intro texs n
    simpa [BindGLTextures] using bindGLTexturesFrom_get texs 0 n
  · intro texs1 texs2 e tag he hb
    simpa [FindTextureSlot] using
      findTextureSlotFrom_append_first texs1 texs2 e tag he hb 0
  · exact ⟨by decide, by decide⟩

theorem C4_witness :
    (BindGLTextures loadABC.m_textureIDs).get? 1 =
        (loadABC.m_textureIDs.get? 1).map (fun e => (1, e.ID)) ∧
      FindTextureSlot ([⟨1, "a"⟩] ++ ⟨2, "b"⟩ :: [⟨3, "c"⟩]) "b" =
        Int.ofNat ([⟨1, "a"⟩] : List TextureEntry).length :=
  ⟨C4_bind_load_order.1 loadABC.m_textureIDs 1,
   C4_bind_load_order.2.1 ([⟨1, "a"⟩] : List TextureEntry)
     ([⟨3, "c"⟩] : List TextureEntry) (⟨2, "b"⟩ : TextureEntry) "b"
     (by decide) (by decide)⟩

/-- Claim C6: `CreateGLTexture` succeeds — returns `true` and registers
the texture under its tag — exactly when the image decodes and its
channel count is 3 (RGB) or 4 (RGBA); any other channel count (e.g. a
2-channel grayscale-alpha image) is a failure for that texture only,
returning `false`. -/
theorem C6_createGLTexture_success_iff
    (decoded : Option (Int × Int × Int)) (tag : String) (s : SceneState) :
    ((CreateGLTexture decoded tag s).1 = true ↔
        ∃ w h c, decoded = some (w, h, c) ∧ (c = 3 ∨ c = 4)) ∧
      ((CreateGLTexture decoded tag s).1 = true →
        (CreateGLTexture decoded tag s).2.m_textureIDs =
          s.m_textureIDs ++ [⟨s.gl.nextTextureName, tag⟩]) := by
  match decoded with
  | none => simp [CreateGLTexture]
  | some (w, h, c) =>
      by_cases hc : c = 3 ∨ c = 4
      · have h1 : (CreateGLTexture (some (w, h, c)) tag s).1 = true := by
          simp [CreateGLTexture, glGenTexture, if_pos hc]
        have h2 : (CreateGLTexture (some (w, h, c)) tag s).2.m_textureIDs =
            s.m_textureIDs ++ [⟨s.gl.nextTextureName, tag⟩] := by
          simp [CreateGLTexture, glGenTexture, if_pos hc]
        exact ⟨⟨fun _ => ⟨w, h, c, rfl, hc⟩, fun _ => h1⟩, fun _ => h2⟩
      · have h1 : (CreateGLTexture (some (w, h, c)) tag s).1 = false := by
          simp [CreateGLTexture, glGenTexture, if_neg hc]
        refine ⟨⟨fun ht => absurd (h1.symm.trans ht) (by decide), ?_⟩,
          fun ht => absurd (h1.symm.trans ht) (by decide)⟩
        rintro ⟨w2, h2, c2, heq, hc2⟩
        rw [Option.some_inj] at heq
        cases heq
        exact absurd hc2 hc

theorem C6_witness :
    (CreateGLTexture (some (2, 2, 4)) "coffee" initialScene).2.m_textureIDs =
      initialScene.m_textureIDs ++
        [⟨initialScene.gl.nextTextureName, "coffee"⟩] :=
  (C6_createGLTexture_success_iff (some (2, 2, 4)) "coffee"
    initialScene).2 (by decide)

/-- Claim C10: whenever `CreateGLTexture` returns `false` (decode failure
or unsupported channel count) the texture registry is unchanged — the
loaded-texture count is not incremented and no tag entry is added — so
`FindTextureID` and `FindTextureSlot` behave exactly as before the failed
call. -/
theorem C10_failed_load_leaves_registry
    (decoded : Option (Int × Int × Int)) (tag : String) (s : SceneState)
    (hfail : (CreateGLTexture decoded tag s).1 = false) :
    (CreateGLTexture decoded tag s).2.m_textureIDs = s.m_textureIDs ∧
      (CreateGLTexture decoded tag s).2.m_objectMaterials =
        s.m_objectMaterials ∧
      (∀ t : String,
        FindTextureID (CreateGLTexture decoded tag s).2.m_textureIDs t =
          FindTextureID s.m_textureIDs t) ∧
      (∀ t : String,
        FindTextureSlot (CreateGLTexture decoded tag s).2.m_textureIDs t =
          FindTextureSlot s.m_textureIDs t) := by
  have hreg : (CreateGLTexture decoded tag s).2.m_textureIDs =
      s.m_textureIDs := by
    match decoded with
    | none => rfl
    | some (w, h, c) =>
        by_cases hc : c = 3 ∨ c = 4
        · exact absurd hfail (by simp [CreateGLTexture, glGenTexture,
            if_pos hc])
        · simp [CreateGLTexture, glGenTexture, if_neg hc]
  have hmats : (CreateGLTexture decoded tag s).2.m_objectMaterials =
      s.m_objectMaterials := by
    match decoded with
    | none => rfl
    | some (w, h, c) =>
        by_cases hc : c = 3 ∨ c = 4
        · exact absurd hfail (by simp [CreateGLTexture, glGenTexture,
            if_pos hc])
        · simp [CreateGLTexture, glGenTexture, if_neg hc]
  exact ⟨hreg, hmats, fun t => by rw [hreg], fun t => by rw [hreg]⟩

theorem C10_witness :
    (CreateGLTexture (some (2, 2, 2)) "ga" initialScene).2.m_textureIDs =
        initialScene.m_textureIDs ∧
      (CreateGLTexture (some (2, 2, 2)) "ga"
            initialScene).2.m_objectMaterials =
        initialScene.m_objectMaterials ∧
      FindTextureID
          (CreateGLTexture (some (2, 2, 2)) "ga"
            initialScene).2.m_textureIDs "ga" =
        FindTextureID initialScene.m_textureIDs "ga" ∧
      FindTextureSlot
          (CreateGLTexture (some (2, 2, 2)) "ga"
            initialScene).2.m_textureIDs "ga" =
        FindTextureSlot initialScene.m_textureIDs "ga" :=
  ⟨(C10_failed_load_leaves_registry (some (2, 2, 2)) "ga" initialScene
      (by decide)).1,
   (C10_failed_load_leaves_registry (some (2, 2, 2)) "ga" initialScene
      (by decide)).2.1,
   (C10_failed_load_leaves_registry (some (2, 2, 2)) "ga" initialScene
      (by decide)).2.2.1 "ga",
   (C10_failed_load_leaves_registry (some (2, 2, 2)) "ga" initialScene
      (by decide)).2.2.2 "ga"⟩

theorem destroyGLTexturesLoop_live (texs : List TextureEntry) :
    ∀ (g : GLState) (t : Nat), t ∈ g.liveTextures →
      t ∈ (destroyGLTexturesLoop g texs).1.liveTextures := by
  induction texs with
  | nil => intro g t ht; exact ht
  | cons e rest ih =>
      intro g t ht
      simp only [destroyGLTexturesLoop]
      exact ih (glGenTexture g).2 t
        (by simp [glGenTexture, List.mem_append, ht])

theorem destroyGLTexturesLoop_len (texs : List TextureEntry) :
    ∀ g : GLState, (destroyGLTexturesLoop g texs).2.length = texs.length := by
  induction texs with
  | nil => intro g; rfl
  | cons e rest ih =>
      intro g
      simp only [destroyGLTexturesLoop, List.length_cons]
      rw [ih (glGenTexture g).2]

theorem destroyGLTexturesLoop_tags (texs : List TextureEntry) :
    ∀ g : GLState, (destroyGLTexturesLoop g texs).2.map TextureEntry.tag =
      texs.map TextureEntry.tag := by
  induction texs with
  | nil => intro g; rfl
  | cons e rest ih =>
      intro g
      simp only [destroyGLTexturesLoop, List.map_cons]
      rw [ih (glGenTexture g).2]

/-- Claim C7: `DestroyGLTextures` is a no-op with respect to freeing —
it deletes no loaded texture (every GL texture object live before the
call is still live after it), and the registry's texture count and tag
entries are unchanged by the call. -/
theorem C7_destroy_frees_nothing (s : SceneState) :
    (∀ t ∈ s.gl.liveTextures, t ∈ (DestroyGLTextures s).gl.liveTextures) ∧
      (DestroyGLTextures s).m_textureIDs.length =
        s.m_textureIDs.length ∧
      (DestroyGLTextures s).m_textureIDs.map TextureEntry.tag =
        s.m_textureIDs.map TextureEntry.tag :=
  ⟨fun t ht => destroyGLTexturesLoop_live s.m_textureIDs s.gl t ht,
   destroyGLTexturesLoop_len s.m_textureIDs s.gl,
   destroyGLTexturesLoop_tags s.m_textureIDs s.gl⟩

theorem C7_witness :
    1 ∈ loadABC.gl.liveTextures ∧
      1 ∈ (DestroyGLTextures loadABC).gl.liveTextures ∧
      (DestroyGLTextures loadABC).m_textureIDs.length =
        loadABC.m_textureIDs.length ∧
      (DestroyGLTextures loadABC).m_textureIDs.map TextureEntry.tag =
        loadABC.m_textureIDs.map TextureEntry.tag :=
  ⟨by decide,
   (C7_destroy_frees_nothing loadABC).1 1 (by decide),
   (C7_destroy_frees_nothing loadABC).2.1,
   (C7_destroy_frees_nothing loadABC).2.2⟩

/-- Claim C2 counterexample: `SetShaderMaterial` does NOT null-check the
shader dependency.  With a null shader and a one-entry material registry,
looking up the "glass" material dereferences the null shader pointer
(modelled as `Except.error ()`), refuting the claim that none of the four
setters dereferences the shader pointer when it is null. -/
theorem C2_counterexample :
    SetShaderMaterial false ⟨(0, 0, 0), (0, 0, 0), 0, ""⟩
        [⟨(3/5, 7/10, 4/5), (9/10, 9/10, 1), 85, "glass"⟩] "glass" =
      Except.error () := rfl

/-- Claim C2 as amended: `SetShaderColor`, `SetShaderTexture` and
`SetTextureUVScale` null-check the shader dependency and forward nothing
when it is null, but `SetShaderMaterial` performs no null check and
dereferences the shader pointer whenever the material registry is
non-empty (for every tag, since `FindMaterial` then reports success),
even when the pointer is null. -/
theorem C2_amended_null_checks :
    (∀ r g b a : ℚ, SetShaderColor false r g b a = Except.ok []) ∧
      (∀ (texs : List TextureEntry) (tag : String),
        SetShaderTexture false texs tag = Except.ok []) ∧
      (∀ u v : ℚ, SetTextureUVScale false u v = Except.ok []) ∧
      (∀ (uninit : OBJECT_MATERIAL) (mats : List OBJECT_MATERIAL)
          (tag : String), mats ≠ [] →
          SetShaderMaterial false uninit mats tag = Except.error ()) := by
  refine ⟨fun r g b a => rfl, fun texs tag => rfl, fun u v => rfl, ?_⟩
  intro uninit mats tag hne
  have hpos : 0 < mats.length := List.length_pos.mpr hne
  have hlen : mats.length ≠ 0 := Nat.pos_iff_ne_zero.mp hpos
  simp only [SetShaderMaterial, if_pos hpos, FindMaterial, if_neg hlen]
  simp

theorem radians_zero : radians 0 = 0 := by
  simp [radians]

theorem radians_ninety : radians 90 = Real.pi / 2 := by
  unfold radians
  ring

theorem scaleMat_one : scaleMat 1 1 1 = 1 := by
  ext i j
  fin_cases i <;> fin_cases j <;>
    simp [scaleMat, Matrix.one_apply, Matrix.vecHead, Matrix.vecTail]

theorem rotXMat_zero : rotXMat 0 = 1 := by
  ext i j
  fin_cases i <;> fin_cases j <;>
    simp [rotXMat, Matrix.one_apply, Matrix.vecHead, Matrix.vecTail]

theorem rotYMat_zero : rotYMat 0 = 1 := by
  ext i j
  fin_cases i <;> fin_cases j <;>
    simp [rotYMat, Matrix.one_apply, Matrix.vecHead, Matrix.vecTail]

theorem rotZMat_zero : rotZMat 0 = 1 := by
  ext i j
  fin_cases i <;> fin_cases j <;>
    simp [rotZMat, Matrix.one_apply, Matrix.vecHead, Matrix.vecTail]

theorem translateMat_zero : translateMat 0 0 0 = 1 := by
  ext i j
  fin_cases i <;> fin_cases j <;>
    simp [translateMat, Matrix.one_apply, Matrix.vecHead, Matrix.vecTail]

/-- Claim C3: `SetTransformations` computes the model matrix exactly as
`Translate * RotateZ * RotateY * RotateX * Scale` (rotations about the
fixed X, Y, Z axes, angles in degrees); unit scale, zero rotations and
origin position yield the identity matrix; and scale (2,1,1), Y rotation
of 90 degrees and translation (1,0,0) map the point (1,0,0) to
(1,0,-2). -/
theorem C3_setTransformations_composition :
    (∀ (scaleXYZ : ℝ × ℝ × ℝ) (rx ry rz : ℝ) (positionXYZ : ℝ × ℝ × ℝ),
        SetTransformations scaleXYZ rx ry rz positionXYZ =
          translateMat positionXYZ.1 positionXYZ.2.1 positionXYZ.2.2 *
            rotZMat (radians rz) * rotYMat (radians ry) *
            rotXMat (radians rx) *
            scaleMat scaleXYZ.1 scaleXYZ.2.1 scaleXYZ.2.2) ∧
      SetTransformations (1, 1, 1) 0 0 0 (0, 0, 0) = 1 ∧
      (SetTransformations (2, 1, 1) 0 90 0 (1, 0, 0)).mulVec
          ![1, 0, 0, 1] = ![1, 0, -2, 1] := by
  refine ⟨fun scaleXYZ rx ry rz positionXYZ => rfl, ?_, ?_⟩
  · show translateMat 0 0 0 * rotZMat (radians 0) * rotYMat (radians 0) *
        rotXMat (radians 0) * scaleMat 1 1 1 = 1
    rw [radians_zero, translateMat_zero, rotZMat_zero, rotYMat_zero,
      rotXMat_zero, scaleMat_one]
    simp
  · have hS : (scaleMat 2 1 1).mulVec ![1, 0, 0, 1] = ![2, 0, 0, 1] := by
      funext i
      fin_cases i <;>
        simp [scaleMat, Matrix.mulVec, Matrix.dotProduct,
          Fin.sum_univ_four, Matrix.vecHead, Matrix.vecTail]
    have hY : (rotYMat (radians 90)).mulVec ![2, 0, 0, 1] =
        ![0, 0, -2, 1] := by
      rw [radians_ninety]
      funext i
      fin_cases i <;>
        simp [rotYMat, Matrix.mulVec, Matrix.dotProduct,
          Fin.sum_univ_four, Real.cos_pi_div_two, Real.sin_pi_div_two,
          Matrix.vecHead, Matrix.vecTail]
    have hT : (translateMat 1 0 0).mulVec ![0, 0, -2, 1] =
        ![1, 0, -2, 1] := by
      funext i
      fin_cases i <;>
        simp [translateMat, Matrix.mulVec, Matrix.dotProduct,
          Fin.sum_univ_four, Matrix.vecHead, Matrix.vecTail]
    show (translateMat 1 0 0 * rotZMat (radians 0) * rotYMat (radians 90) *
        rotXMat (radians 0) * scaleMat 2 1 1).mulVec ![1, 0, 0, 1] =
      ![1, 0, -2, 1]
    rw [radians_zero, rotZMat_zero, rotXMat_zero, mul_one, mul_one]
    rw [← Matrix.mulVec_mulVec, ← Matrix.mulVec_mulVec, hS, hY, hT]

theorem C2_amended_witness :
    SetShaderMaterial false ⟨(0, 0, 0), (0, 0, 0), 0, ""⟩
        [⟨(1, 1, 1), (1, 1, 1), 5, "metal"⟩] "wood" = Except.error () :=
  C2_amended_null_checks.2.2.2 ⟨(0, 0, 0), (0, 0, 0), 0, ""⟩
    ([⟨(1, 1, 1), (1, 1, 1), 5, "metal"⟩] : List OBJECT_MATERIAL) "wood"
    (by decide)

end SceneManager
